import Mathlib

/-!
Verification of the peeps-log contact manager against its specification.

The embedding follows the three source files:
  * `src/src/pages/Index.tsx` — contact list view: `loadProfile`,
    `loadContacts`, `handleSaveContact`, `handleDeleteContact`,
    `filteredContacts`, header display;
  * `src/src/components/ContactCard.tsx` — `ContactCard` and
    `ContactDialog` (field seeding `useEffect` and `handleSubmit`);
  * `src/unnamed/part_000` — the schema migration
    `ALTER TABLE public.contacts ADD COLUMN city TEXT DEFAULT 'Burgos'`
    followed by a backfill `UPDATE ... SET city = 'Burgos' WHERE city IS NULL`.

JavaScript conventions captured by the embedding:
  * an optional field that is `undefined` is `none`;
  * object keys whose value is `undefined` are dropped by JSON
    serialisation before the payload reaches the store, so a `none`
    field of a payload means "key absent" (column untouched on update,
    column default applied on insert);
  * `x || y` on strings falls through on the empty string;
  * `s.includes(t)` is substring containment, `s.toLowerCase()` is
    simple lowercasing (modelled over the ASCII and Latin-1 ranges,
    which cover every string this application and its spec exercise).
-/

namespace PeepsLog

/-- A record as assembled by the form dialog (`ContactDialog`'s `Contact`
interface): `id` is present only when editing, the optional text fields are
`none` when not provided. `city` is absent from the dialog's interface. -/
structure Contact where
  id : Option String
  name : String
  email : Option String
  phone : Option String
  address : Option String
  notes : Option String
deriving Repr, DecidableEq

/-- A stored row of the `contacts` table: server-assigned `id` and
`created_at`, owner `user_id`, and the optional text columns including the
migration-added `city`. -/
structure Row where
  id : String
  user_id : String
  created_at : Nat
  name : String
  email : Option String
  phone : Option String
  address : Option String
  city : Option String
  notes : Option String
deriving Repr, DecidableEq

/-- A row of the `profiles` table as selected by `loadProfile`
(`select("full_name")`): the display name may be null. -/
structure Profile where
  full_name : Option String
deriving Repr, DecidableEq

/-- JavaScript `String.prototype.toLowerCase` on one character: simple
lowercasing for ASCII `A`-`Z` and the Latin-1 uppercase range `À`-`Þ`
(excluding `×`), identity elsewhere. -/
def charToLower (c : Char) : Char :=
  let n := c.toNat
  if 65 ≤ n ∧ n ≤ 90 then Char.ofNat (n + 32)
  else if 192 ≤ n ∧ n ≤ 222 ∧ n ≠ 215 then Char.ofNat (n + 32)
  else c

/-- JavaScript `String.prototype.toLowerCase`. -/
def toLowerCase (s : String) : String :=
  String.mk (s.toList.map charToLower)

/-- JavaScript `hay.includes(needle)`: `needle` occurs as a contiguous
substring of `hay`. -/
def strIncludes (hay needle : String) : Bool :=
  (List.range (hay.toList.length + 1)).any
    (fun i => needle.toList.isPrefixOf (hay.toList.drop i))

/-- The predicate of `filteredContacts` in `Index.tsx`:
`contact.name.toLowerCase().includes(searchTerm.toLowerCase()) ||
 contact.email?.toLowerCase().includes(searchTerm.toLowerCase()) ||
 contact.phone?.includes(searchTerm)`.
An optional chain on a missing field yields `undefined`, which is falsy. -/
def matchesSearch (searchTerm : String) (contact : Row) : Bool :=
  strIncludes (toLowerCase contact.name) (toLowerCase searchTerm) ||
  (match contact.email with
   | some e => strIncludes (toLowerCase e) (toLowerCase searchTerm)
   | none => false) ||
  (match contact.phone with
   | some p => strIncludes p searchTerm
   | none => false)

/-- `filteredContacts` from `Index.tsx`: `contacts.filter(...)`. -/
def filteredContacts (searchTerm : String) (contacts : List Row) : List Row :=
  contacts.filter (matchesSearch searchTerm)

/-- The search criterion as the spec words it, for comparison with the
code's `matchesSearch`: the term is a case-insensitive substring of the
name, or a case-insensitive substring of the email, or a case-sensitive
substring of the phone. -/
def specSearchCriterion (term : String) (contact : Row) : Bool :=
  strIncludes (toLowerCase contact.name) (toLowerCase term) ||
  contact.email.elim false (fun e => strIncludes (toLowerCase e) (toLowerCase term)) ||
  contact.phone.elim false (fun p => strIncludes p term)

/-- First demo contact of the spec's search example. -/
def anaRow : Row :=
  { id := "1", user_id := "u", created_at := 2, name := "Ana López",
    email := some "a@x.com", phone := some "600111222",
    address := none, city := none, notes := none }

/-- Second demo contact of the spec's search example. -/
def betoRow : Row :=
  { id := "2", user_id := "u", created_at := 1, name := "Beto",
    email := some "b@x.com", phone := some "600333444",
    address := none, city := none, notes := none }

theorem matchesSearch_eq_spec (term : String) (c : Row) :
    matchesSearch term c = specSearchCriterion term c := by
  cases c with
  | mk id uid ts nm em ph ad ci no =>
    cases em <;> cases ph <;> rfl

/-- Any string includes the empty string (`hay.includes("")` is true). -/
theorem strIncludes_empty (hay : String) : strIncludes hay "" = true := by
  unfold strIncludes
  rw [List.any_eq_true]
  refine ⟨0, List.mem_range.mpr (Nat.succ_pos _), ?_⟩
  simp [List.isPrefixOf]

/-! ### Contact Form Dialog (`ContactDialog` in `ContactCard.tsx`) -/

/-- The dialog's five controlled text fields (`name`, `email`, `phone`,
`address`, `notes` — no `city` input exists). -/
structure DialogFields where
  name : String
  email : String
  phone : String
  address : String
  notes : String
deriving Repr, DecidableEq

/-- The seeding `useEffect`: on opening for edit, each field is set from the
record with `editingContact.<field> || ""`; on opening for create, every
field is cleared. -/
def seedFields : Option Contact → DialogFields
  | some c =>
      { name := c.name, email := c.email.getD "", phone := c.phone.getD "",
        address := c.address.getD "", notes := c.notes.getD "" }
  | none =>
      { name := "", email := "", phone := "", address := "", notes := "" }

/-- `field || undefined`: an empty string becomes absent. -/
def emptyToNone (s : String) : Option String :=
  if s = "" then none else some s

/-- JavaScript truthiness of an optional string (`editingContact?.id`). -/
def idTruthy : Option String → Bool
  | some s => !(s == "")
  | none => false

/-- The record object assembled by `handleSubmit`:
`{...(editingContact?.id ? {id: editingContact.id} : {}), name,
email: email || undefined, phone: phone || undefined,
address: address || undefined, notes: notes || undefined}`. -/
def submittedRecord (editingContact : Option Contact) (f : DialogFields) : Contact :=
  { id :=
      match editingContact with
      | some c => if idTruthy c.id then c.id else none
      | none => none,
    name := f.name,
    email := emptyToNone f.email,
    phone := emptyToNone f.phone,
    address := emptyToNone f.address,
    notes := emptyToNone f.notes }

/-- `handleSubmit`: prevents the default submission, emits the assembled
record via `onSave`, then calls `onOpenChange(false)`. The `saveOutcome`
argument stands for whatever the `onSave` callback later does; the code
never inspects it, so the requested open state (second component) is `false`
unconditionally. -/
def handleSubmit (editingContact : Option Contact) (f : DialogFields)
    (saveOutcome : Except String Unit) : Contact × Bool :=
  let _ := saveOutcome
  (submittedRecord editingContact f, false)

/-! ### Store requests issued by `Index.tsx` -/

/-- The body of the `update(...)` call in `handleSaveContact`. A field that
is `some v` is a key serialised with value `v`; `none` means the key is
absent from the serialised body (either never written, or written as
`undefined` and dropped by JSON serialisation), so the store leaves that
column untouched. The code writes only the keys `name`, `email`, `phone`,
`notes`. -/
structure UpdatePayload where
  id : Option String
  user_id : Option String
  created_at : Option Nat
  name : Option String
  email : Option String
  phone : Option String
  address : Option String
  city : Option String
  notes : Option String
deriving Repr, DecidableEq

/-- The update body built by `handleSaveContact` for a record with an id:
`{name: contact.name, email: contact.email, phone: contact.phone,
notes: contact.notes}`. -/
def updatePayload (contact : Contact) : UpdatePayload :=
  { id := none, user_id := none, created_at := none,
    name := some contact.name, email := contact.email,
    phone := contact.phone, address := none, city := none,
    notes := contact.notes }

/-- The body of the `insert(...)` call in `handleSaveContact`; `none` means
the key is absent from the serialised body, so the store applies the column
default. The code writes only `user_id`, `name`, `email`, `phone`, `notes`. -/
structure InsertPayload where
  user_id : String
  name : String
  email : Option String
  phone : Option String
  address : Option String
  city : Option String
  notes : Option String
deriving Repr, DecidableEq

/-- The insert body built by `handleSaveContact` for a record without an id:
`{user_id: session.user.id, name: contact.name, email: contact.email,
phone: contact.phone, notes: contact.notes}`. -/
def insertPayload (uid : String) (contact : Contact) : InsertPayload :=
  { user_id := uid, name := contact.name, email := contact.email,
    phone := contact.phone, address := none, city := none,
    notes := contact.notes }

/-- A write request sent to the contacts table by `handleSaveContact`. -/
inductive StoreRequest where
  | update (eqId : String) (body : UpdatePayload)
  | insert (body : InsertPayload)
deriving Repr, DecidableEq

/-- `handleSaveContact`: returns early (no request) without a session;
otherwise branches on the truthiness of `contact.id` between
`update(...).eq("id", contact.id)` and `insert(...)`. -/
def handleSaveContact (sessionUser : Option String) (contact : Contact) :
    Option StoreRequest :=
  match sessionUser with
  | none => none
  | some uid =>
      if idTruthy contact.id then
        some (StoreRequest.update (contact.id.getD "") (updatePayload contact))
      else
        some (StoreRequest.insert (insertPayload uid contact))

/-- The delete request of `handleDeleteContact`:
`from("contacts").delete().eq("id", id)`. -/
structure DeleteRequest where
  table : String
  eqId : String
deriving Repr, DecidableEq

/-- `handleDeleteContact` reads no session state: whatever the session is,
it issues the delete-by-id request. The `sessionUser` argument is taken
only to express this (the source function's body never mentions the
session). -/
def handleDeleteContact (sessionUser : Option String) (id : String) :
    Option DeleteRequest :=
  let _ := sessionUser
  some { table := "contacts", eqId := id }

/-- The read request of `loadContacts`:
`from("contacts").select("*").eq("user_id", uid)
 .order("created_at", {ascending: false})`. -/
structure ContactsQuery where
  table : String
  eqUserId : String
  orderColumn : String
  ascending : Bool
deriving Repr, DecidableEq

/-- The concrete select query built by `loadContacts` for user `uid`. -/
def contactsQueryFor (uid : String) : ContactsQuery :=
  { table := "contacts", eqUserId := uid,
    orderColumn := "created_at", ascending := false }

/-- `loadContacts` returns early (no request) without a session; otherwise
it issues exactly one select query, owner-filtered and ordered by
`created_at` descending. -/
def loadContactsRequest (sessionUser : Option String) : Option ContactsQuery :=
  match sessionUser with
  | none => none
  | some uid => some (contactsQueryFor uid)

/-! ### Store semantics

The hosted store executes the requests above with standard SQL semantics.
After the migration in `src/unnamed/part_000`
(`ALTER TABLE public.contacts ADD COLUMN city TEXT DEFAULT 'Burgos'`, with
no subsequent `DROP DEFAULT`), `'Burgos'` remains the column default of
`city`, so an insert whose body omits the `city` key stores `'Burgos'`
there. The other optional columns have no default and store null (absent)
when their key is omitted. -/

/-- The column default of `city` left in place by the migration. -/
def cityDefault : Option String := some "Burgos"

/-- Overwrite an optional column when its key is present in the update
body, leave it untouched otherwise. -/
def setCol (old : Option String) (new : Option String) : Option String :=
  match new with
  | some v => some v
  | none => old

/-- Store-side execution of an update body against one row: each column
whose key is present is set, every other column keeps its value. -/
def applyUpdate (r : Row) (p : UpdatePayload) : Row :=
  { id := p.id.getD r.id,
    user_id := p.user_id.getD r.user_id,
    created_at := p.created_at.getD r.created_at,
    name := p.name.getD r.name,
    email := setCol r.email p.email,
    phone := setCol r.phone p.phone,
    address := setCol r.address p.address,
    city := setCol r.city p.city,
    notes := setCol r.notes p.notes }

/-- Store-side execution of an insert body: the server assigns `id` and
`created_at`; a column whose key is absent receives its column default
(`'Burgos'` for `city` after the migration, null for the others). -/
def applyInsert (p : InsertPayload) (newId : String) (ts : Nat) : Row :=
  { id := newId, user_id := p.user_id, created_at := ts,
    name := p.name, email := p.email, phone := p.phone,
    address := p.address,
    city := match p.city with
            | some v => some v
            | none => cityDefault,
    notes := p.notes }

/-- Ordering used by the contacts select: newest first
(`order("created_at", {ascending: false})`). -/
def newestFirst (a b : Row) : Prop := b.created_at ≤ a.created_at

instance : DecidableRel newestFirst := fun a b =>
  inferInstanceAs (Decidable (b.created_at ≤ a.created_at))

instance : IsTotal Row newestFirst :=
  ⟨fun a b => (Nat.le_total b.created_at a.created_at).symm.symm⟩

instance : IsTrans Row newestFirst :=
  ⟨fun _ _ _ h1 h2 => Nat.le_trans h2 h1⟩

/-- Store-side execution of the contacts select: the rows of the store
matching the owner filter, ordered by `created_at` (descending when
`ascending` is false). -/
def execSelect (store : List Row) (q : ContactsQuery) : List Row :=
  let owned := store.filter (fun r => r.user_id == q.eqUserId)
  if q.ascending then
    List.insertionSort (fun a b => a.created_at ≤ b.created_at) owned
  else
    List.insertionSort newestFirst owned

/-! ### Contact List View state (`Index.tsx`) -/

/-- A toast notification. -/
inductive Toast where
  | success (msg : String)
  | error (msg : String)
deriving Repr, DecidableEq

/-- The data-bearing state of the list view: the displayed contacts, the
notifications shown so far, and the loaded profile. -/
structure ViewState where
  contacts : List Row
  toasts : List Toast
  profile : Option Profile
deriving Repr, DecidableEq

/-- The state transition of `loadContacts` once the store responds: on
error, `toast.error("Error al cargar contactos")` and the contacts state is
not written; on success, `setContacts(data || [])`. -/
def loadContactsApply (st : ViewState) (resp : Except String (List Row)) :
    ViewState :=
  match resp with
  | Except.error _ =>
      { st with toasts := st.toasts ++ [Toast.error "Error al cargar contactos"] }
  | Except.ok rows => { st with contacts := rows }

/-- The state transition of `loadProfile` once the store responds
(`const {data} = await ...single(); if (data) setProfile(data)`): the error
channel is discarded, no toast is ever shown, and the profile is written
only when a row came back. `none` covers both a failed lookup and a lookup
finding no row. -/
def loadProfileApply (st : ViewState) (resp : Option Profile) : ViewState :=
  match resp with
  | some p => { st with profile := some p }
  | none => st

/-- The header's display value:
`profile?.full_name || session?.user?.email` — a missing profile, a null
`full_name`, or an empty `full_name` all fall through to the email. -/
def headerDisplay (profile : Option Profile) (email : String) : String :=
  match profile with
  | some p =>
      match p.full_name with
      | some n => if n = "" then email else n
      | none => email
  | none => email

/-! ### Concrete inputs used by the theorems -/

/-- An edited record carrying an id and a non-empty address, as the form
dialog emits it. -/
def anaEdit : Contact :=
  { id := some "c1", name := "Ana", email := some "a@x.com",
    phone := none, address := some "Calle Mayor 1", notes := none }

/-- A new record (no id) carrying a non-empty address, as the form dialog
emits it. -/
def carlaNew : Contact :=
  { id := none, name := "Carla", email := none,
    phone := some "611222333", address := some "Calle Mayor 1", notes := none }

/-- A stored record with an absent address, as loaded and passed to the
dialog for editing. -/
def noAddressContact : Contact :=
  { id := some "c2", name := "Dora", email := some "d@x.com",
    phone := none, address := none, notes := none }

/-- Dialog field contents used as the witness input for the submit
theorem. -/
def demoFields : DialogFields :=
  { name := "Ana", email := "", phone := "611222333", address := "",
    notes := "" }

/-- Helper: `emptyToNone` yields `none` exactly on the empty string. -/
theorem emptyToNone_eq_none (s : String) : emptyToNone s = none ↔ s = "" := by
  unfold emptyToNone
  split <;> simp_all

/-! ### Claim theorems -/

/-- C1: the claim says a save of a record carrying an id issues an update
setting name, email, phone, address and notes. The code's update body omits
the `address` key: saving `anaEdit`, whose address is `"Calle Mayor 1"`,
issues an update whose body has no address, so the stored address of the
targeted row — and its id, user_id and created_at — are left unchanged for
every contact and every row. The claim's address clause fails on the code
while the dialog collects and emits the address, so the code contradicts
its own form and card, a code bug. -/
theorem update_drops_address :
    handleSaveContact (some "u1") anaEdit =
      some (StoreRequest.update "c1" (updatePayload anaEdit)) ∧
    anaEdit.address = some "Calle Mayor 1" ∧
    (updatePayload anaEdit).address = none ∧
    (∀ c : Contact, (updatePayload c).address = none) ∧
    ∀ (c : Contact) (r : Row),
      (applyUpdate r (updatePayload c)).address = r.address ∧
      (applyUpdate r (updatePayload c)).id = r.id ∧
      (applyUpdate r (updatePayload c)).user_id = r.user_id ∧
      (applyUpdate r (updatePayload c)).created_at = r.created_at :=
  ⟨rfl, rfl, rfl, fun _ => rfl, fun _ _ => ⟨rfl, rfl, rfl, rfl⟩⟩

/-- C2: the claim says a save of a record without an id issues an insert of
(user_id, name, email, phone, address, notes). The code's insert body omits
the `address` key: saving `carlaNew`, whose address is `"Calle Mayor 1"`,
issues an insert whose body has no address, so the stored row's address is
absent instead of matching the submitted non-empty field; user_id, name and
phone are stored as claimed. A code bug for the same reason as C1. -/
theorem insert_drops_address :
    handleSaveContact (some "u1") carlaNew =
      some (StoreRequest.insert (insertPayload "u1" carlaNew)) ∧
    carlaNew.address = some "Calle Mayor 1" ∧
    (insertPayload "u1" carlaNew).address = none ∧
    (applyInsert (insertPayload "u1" carlaNew) "c9" 5).address = none ∧
    (applyInsert (insertPayload "u1" carlaNew) "c9" 5).user_id = "u1" ∧
    (applyInsert (insertPayload "u1" carlaNew) "c9" 5).name = "Carla" ∧
    (applyInsert (insertPayload "u1" carlaNew) "c9" 5).phone = some "611222333" ∧
    ∀ (uid : String) (c : Contact),
      (insertPayload uid c).address = none ∧ (insertPayload uid c).user_id = uid :=
  ⟨rfl, rfl, rfl, rfl, rfl, rfl, rfl, fun _ _ => ⟨rfl, rfl⟩⟩

/-- C3 counterexample: the claim says a contact created through the insert
path after the migration has `city` absent. Inserting `carlaNew` through
the app omits the `city` key, but the migration's
`ADD COLUMN city TEXT DEFAULT 'Burgos'` leaves `'Burgos'` as the column
default, so the stored row's city is `'Burgos'`, not absent. -/
theorem city_not_absent_after_insert :
    (insertPayload "u1" carlaNew).city = none ∧
    (applyInsert (insertPayload "u1" carlaNew) "c9" 5).city = some "Burgos" ∧
    (applyInsert (insertPayload "u1" carlaNew) "c9" 5).city ≠ none :=
  ⟨rfl, rfl, fun h => Option.noConfusion h⟩

/-- C3 amended: for every contact created through the application's insert
path after the migration, the insert body omits the `city` key (the client
sets no value), and the stored row's city is the migration's column default
`'Burgos'` rather than absent. -/
theorem insert_city_defaulted (uid : String) (c : Contact) (newId : String)
    (ts : Nat) :
    (insertPayload uid c).city = none ∧
    (applyInsert (insertPayload uid c) newId ts).city = some "Burgos" :=
  ⟨rfl, rfl⟩

/-- C4: the client-side filter keeps exactly the contacts where the term is
a case-insensitive substring of the name or the email, or a case-sensitive
substring of the phone; on the spec's demo list, `"ana"` keeps only the
first contact, `"600"` keeps both, `"999"` keeps none. -/
theorem search_filter_spec :
    (∀ (term : String) (l : List Row) (c : Row),
      c ∈ filteredContacts term l ↔ c ∈ l ∧ specSearchCriterion term c = true) ∧
    filteredContacts "ana" [anaRow, betoRow] = [anaRow] ∧
    filteredContacts "600" [anaRow, betoRow] = [anaRow, betoRow] ∧
    filteredContacts "999" [anaRow, betoRow] = [] := by
  refine ⟨?_, by decide, by decide, by decide⟩
  intro term l c
  simp [filteredContacts, List.mem_filter, matchesSearch_eq_spec]

/-- C5: for every submission of the form dialog, the emitted record carries
an id exactly when an existing record (which always carries a truthy id) is
being edited — and then it is that record's id; the name is passed through
as typed; each optional field is absent exactly when its input is the empty
string; and the requested dialog open state is `false` whatever the save
outcome. -/
theorem dialog_submit_spec (editing : Option Contact) (f : DialogFields)
    (o : Except String Unit)
    (hid : ∀ c, editing = some c → idTruthy c.id = true) :
    ((handleSubmit editing f o).1.id ≠ none ↔ editing ≠ none) ∧
    (∀ c, editing = some c → (handleSubmit editing f o).1.id = c.id) ∧
    (handleSubmit editing f o).1.name = f.name ∧
    ((handleSubmit editing f o).1.email = none ↔ f.email = "") ∧
    ((handleSubmit editing f o).1.phone = none ↔ f.phone = "") ∧
    ((handleSubmit editing f o).1.address = none ↔ f.address = "") ∧
    ((handleSubmit editing f o).1.notes = none ↔ f.notes = "") ∧
    (handleSubmit editing f o).2 = false := by
  cases editing with
  | none =>
      refine ⟨by simp [handleSubmit, submittedRecord], ?_, rfl,
        emptyToNone_eq_none f.email, emptyToNone_eq_none f.phone,
        emptyToNone_eq_none f.address, emptyToNone_eq_none f.notes, rfl⟩
      intro c hc
      exact absurd hc (by simp)
  | some c =>
      have h := hid c rfl
      refine ⟨?_, ?_, rfl, emptyToNone_eq_none f.email,
        emptyToNone_eq_none f.phone, emptyToNone_eq_none f.address,
        emptyToNone_eq_none f.notes, rfl⟩
      · cases hc : c.id with
        | none => rw [hc] at h; exact absurd h (by simp [idTruthy])
        | some s =>
            simp only [handleSubmit, submittedRecord, h, if_true]
            rw [hc]
            simp
      · intro c2 hc2
        injection hc2 with hc2
        subst hc2
        simp only [handleSubmit, submittedRecord, h, if_true]

/-- C5 witness. -/
theorem dialog_submit_spec_witness :
    ((handleSubmit (some anaEdit) demoFields (Except.ok ())).1.id ≠ none ↔
      (some anaEdit : Option Contact) ≠ none) ∧
    (∀ c, (some anaEdit : Option Contact) = some c →
      (handleSubmit (some anaEdit) demoFields (Except.ok ())).1.id = c.id) ∧
    (handleSubmit (some anaEdit) demoFields (Except.ok ())).1.name = demoFields.name ∧
    ((handleSubmit (some anaEdit) demoFields (Except.ok ())).1.email = none ↔
      demoFields.email = "") ∧
    ((handleSubmit (some anaEdit) demoFields (Except.ok ())).1.phone = none ↔
      demoFields.phone = "") ∧
    ((handleSubmit (some anaEdit) demoFields (Except.ok ())).1.address = none ↔
      demoFields.address = "") ∧
    ((handleSubmit (some anaEdit) demoFields (Except.ok ())).1.notes = none ↔
      demoFields.notes = "") ∧
    (handleSubmit (some anaEdit) demoFields (Except.ok ())).2 = false :=
  dialog_submit_spec (some anaEdit) demoFields (Except.ok ())
    (by intro c hc; injection hc with hc; subst hc; decide)

/-- C6: editing a record whose address is absent seeds the dialog's address
field with the empty string, and submitting the seeded fields unchanged
emits a record whose address is absent again. -/
theorem absent_address_round_trip (c : Contact) (o : Except String Unit)
    (h : c.address = none) :
    (seedFields (some c)).address = "" ∧
    (handleSubmit (some c) (seedFields (some c)) o).1.address = none := by
  constructor
  · simp [seedFields, h]
  · simp [handleSubmit, submittedRecord, seedFields, h, emptyToNone]

/-- C6 witness. -/
theorem absent_address_round_trip_witness :
    (seedFields (some noAddressContact)).address = "" ∧
    (handleSubmit (some noAddressContact) (seedFields (some noAddressContact))
      (Except.ok ())).1.address = none :=
  absent_address_round_trip noAddressContact (Except.ok ()) rfl

/-- C7: `loadContacts` issues the owner-filtered select ordered by
`created_at` descending (and its store-side result holds exactly the rows
owned by the user, sorted newest first); on failure it appends the
localized error toast and leaves the displayed contacts (and profile)
unchanged; on success it replaces the displayed contacts with the returned
rows without adding a toast. It issues at most the single query (none at
all without a session) and never retries. -/
theorem load_contacts_spec (uid : String) (st : ViewState) (e : String)
    (rows store : List Row) :
    loadContactsRequest (some uid) = some (contactsQueryFor uid) ∧
    contactsQueryFor uid =
      { table := "contacts", eqUserId := uid, orderColumn := "created_at",
        ascending := false } ∧
    (∀ r : Row, r ∈ execSelect store (contactsQueryFor uid) ↔
      r ∈ store ∧ r.user_id = uid) ∧
    List.Sorted newestFirst (execSelect store (contactsQueryFor uid)) ∧
    (loadContactsApply st (Except.error e)).contacts = st.contacts ∧
    (loadContactsApply st (Except.error e)).profile = st.profile ∧
    (loadContactsApply st (Except.error e)).toasts =
      st.toasts ++ [Toast.error "Error al cargar contactos"] ∧
    (loadContactsApply st (Except.ok rows)).contacts = rows ∧
    (loadContactsApply st (Except.ok rows)).toasts = st.toasts := by
  refine ⟨rfl, rfl, ?_, ?_, rfl, rfl, rfl, rfl, rfl⟩
  · intro r
    simp [execSelect, contactsQueryFor, List.mem_filter]
  · simp only [execSelect, contactsQueryFor]
    exact List.sorted_insertionSort newestFirst _

/-- C8: a profile lookup that fails or finds no row leaves the whole view
state — in particular the toasts — unchanged, and the header then shows the
user's email; the profile state is written only when a row is returned. -/
theorem load_profile_fallback (st : ViewState) (p : Profile)
    (cs : List Row) (ts : List Toast) (email : String) :
    loadProfileApply st none = st ∧
    (loadProfileApply st none).toasts = st.toasts ∧
    (loadProfileApply st (some p)).profile = some p ∧
    headerDisplay (loadProfileApply ⟨cs, ts, none⟩ none).profile email = email :=
  ⟨rfl, rfl, rfl, rfl⟩

/-- C9: `handleDeleteContact` issues the delete-by-id request in every
session state — its body never reads the session — while `handleSaveContact`
and `loadContacts` issue no request at all without a session. -/
theorem delete_unguarded (sess : Option String) (id : String) (c : Contact) :
    handleDeleteContact sess id = some { table := "contacts", eqId := id } ∧
    handleSaveContact none c = none ∧
    loadContactsRequest none = none :=
  ⟨rfl, rfl, rfl⟩

/-- C10: filtering with the empty search term keeps every contact — the
term is a substring of every lowered name — so the filter returns the list
unchanged and in order. -/
theorem empty_search_identity (contacts : List Row) :
    filteredContacts "" contacts = contacts := by
  unfold filteredContacts
  rw [List.filter_eq_self]
  intro c _
  unfold matchesSearch
  have h0 : toLowerCase "" = "" := rfl
  rw [h0, strIncludes_empty]
  simp

end PeepsLog
